import Mathlib

/-!
Verification of the 3xui-shop repository specification.

Shallow embedding of the parts of the code the claims touch:
the YooKassa webhook handler and payment lifecycle
(`app/bot/payment_gateways/yookassa.py`), the Promocode ORM model
(`app/db/models/promocode.py`), the log-rotation handler
(`app/logger.py`), the main-menu and successful-payment Telegram
handlers, and the admin restart handler.

Python exceptions are modelled with `Except`; an exception that a
function lets escape is an `Except.error` result, while a caught
exception never surfaces.  Machine state (the transaction table, the
promocode table, the log directory) is passed explicitly.
-/

/-- Python exception values that matter to the embedded code. -/
inductive PyExn where
  | attributeError
  | jsonError
  | integrityError
  | other
deriving DecidableEq, Repr

/-! ## Transaction model

The `Transaction` ORM class itself is not among the provided source
files; only its callers are.  Its row shape and CRUD operations are
modelled from the spec. -/

/-- Modelled from the spec: the `TransactionStatus` enumeration
(`app/bot/utils/constants.py` is not in the provided sources); the spec
gives the three values PENDING, COMPLETED, CANCELED. -/
inductive TransactionStatus where
  | PENDING
  | COMPLETED
  | CANCELED
deriving DecidableEq, Repr

/-- Modelled from the spec: a payment record keyed by a gateway-issued
payment identifier, with a status field tracking the outcome
(`app/db/models/transaction.py` is not in the provided sources). -/
structure Transaction where
  tg_id : Nat
  subscription : String
  payment_id : String
  status : TransactionStatus
deriving DecidableEq, Repr

/-- The transaction table, as the list of its rows. -/
abbrev TxDB := List Transaction

namespace Transaction

/-- Modelled from the spec: `Transaction.create` inserts a new row
(create-on-request lifecycle); the caller in `yookassa.py` passes
tg_id, subscription, payment_id and status. -/
def create (db : TxDB) (tg_id : Nat) (subscription : String)
    (payment_id : String) (status : TransactionStatus) : TxDB :=
  db ++ [⟨tg_id, subscription, payment_id, status⟩]

/-- Modelled from the spec: `Transaction.get_by_id` reads a row by its
unique payment identifier (read-by-primary-key-or-unique-code). -/
def get_by_id (db : TxDB) (payment_id : String) : Option Transaction :=
  db.find? (fun t => t.payment_id = payment_id)

/-- Modelled from the spec: `Transaction.update` updates the row with
the given payment identifier (update-on-webhook-or-payment-event); the
callers in `yookassa.py` pass only a new status. -/
def update (db : TxDB) (payment_id : String)
    (status : TransactionStatus) : TxDB :=
  db.map (fun t => if t.payment_id = payment_id then { t with status := status } else t)

end Transaction

/-! ## YooKassa gateway (`app/bot/payment_gateways/yookassa.py`) -/

/-- The YooKassa webhook notification event types
(`WebhookNotificationEventType` of the yookassa SDK). -/
inductive WEvent where
  | paymentSucceeded
  | paymentCanceled
  | paymentWaitingForCapture
  | refundSucceeded
  | dealClosed
  | payoutSucceeded
  | payoutCanceled
deriving DecidableEq, Repr

/-- A parsed webhook notification: `notification_object.event` and
`notification_object.object.id`. -/
structure WNotification where
  event : WEvent
  payment_id : String
deriving DecidableEq, Repr

/-- Raw JSON body of a webhook request, kept abstract. -/
abbrev RawJson := String

deriving instance DecidableEq for Except

/-- An incoming aiohttp request, as `webhook_handler` reads it:
the `X-Forwarded-For` header, the remote address, and the outcome of
`await request.json()` (which raises on an unparsable body). -/
structure WRequest where
  xForwardedFor : Option String
  remote : String
  jsonBody : Except PyExn RawJson
deriving DecidableEq, Repr

/-- Outcome of a payment-event sub-handler: it either completes with a
new transaction table, or raises, leaving the table in some state. -/
inductive HandlerOutcome where
  | ok (db : TxDB)
  | exn (e : PyExn) (db : TxDB)
deriving DecidableEq, Repr

/-- The environment `webhook_handler` calls into: the SDK IP trust
check (`SecurityHelper().is_ip_trusted`), the SDK notification factory
(`WebhookNotificationFactory().create`, which raises on a malformed
body), and the two bound payment-event methods of the gateway. -/
structure Gateway where
  trusted : String → Bool
  factory : RawJson → Except PyExn WNotification
  handleSucceeded : String → TxDB → HandlerOutcome
  handleCanceled : String → TxDB → HandlerOutcome

namespace Yookassa

/-- Embedding of `Yookassa.webhook_handler` (yookassa.py lines
114-139).  Returns `.ok (statusCode, db)` for an HTTP response, or
`.error e` when an exception escapes to the HTTP server.  Note that
`await request.json()` is evaluated before the `try` block, so a JSON
parse failure is not caught; the factory call and the event handlers
run inside `try`, and any exception there is mapped to status 400. -/
def webhook_handler (g : Gateway) (req : WRequest) (db : TxDB) :
    Except PyExn (Nat × TxDB) :=
  let ip := req.xForwardedFor.getD req.remote
  if ¬ g.trusted ip then
    .ok (403, db)
  else
    match req.jsonBody with
    | .error e => .error e
    | .ok raw =>
      match g.factory raw with
      | .error _ => .ok (400, db)
      | .ok notif =>
        match notif.event with
        | .paymentSucceeded =>
          match g.handleSucceeded notif.payment_id db with
          | .ok db2 => .ok (200, db2)
          | .exn _ db2 => .ok (400, db2)
        | .paymentCanceled =>
          match g.handleCanceled notif.payment_id db with
          | .ok db2 => .ok (200, db2)
          | .exn _ db2 => .ok (400, db2)
        | _ => .ok (400, db)

/-- Embedding of the transaction-table effect of `Yookassa.create_payment`
(yookassa.py lines 101-108): after the SDK issues a payment whose id is
`payment_id`, a Transaction row is created with that id and status
PENDING. -/
def create_payment (db : TxDB) (user_id : Nat) (packed : String)
    (payment_id : String) : TxDB :=
  Transaction.create db user_id packed payment_id TransactionStatus.PENDING

/-- Embedding of the transaction-table effect of
`Yookassa.handle_payment_succeeded` (yookassa.py lines 141-154): the row
with the given payment id is read; if no row exists, reading
`transaction.subscription` on `None` raises before any update; otherwise
the row is updated to status COMPLETED.  The VPN and notification calls
after the update do not touch the transaction table. -/
def handle_payment_succeeded (db : TxDB) (payment_id : String) : HandlerOutcome :=
  match Transaction.get_by_id db payment_id with
  | none => .exn .attributeError db
  | some _ => .ok (Transaction.update db payment_id TransactionStatus.COMPLETED)

/-- Embedding of the transaction-table effect of
`Yookassa.handle_payment_canceled` (yookassa.py lines 184-194):
analogous to the succeeded case, with status CANCELED. -/
def handle_payment_canceled (db : TxDB) (payment_id : String) : HandlerOutcome :=
  match Transaction.get_by_id db payment_id with
  | none => .exn .attributeError db
  | some _ => .ok (Transaction.update db payment_id TransactionStatus.CANCELED)

end Yookassa

/-! ## Promocode model (`app/db/models/promocode.py`) -/

/-- A Promocode row: the unique code, the subscription duration, the
activation flag.  The id and timestamp columns play no role in the
claims. -/
structure Promocode where
  code : String
  duration : Nat
  is_activated : Bool
deriving DecidableEq, Repr

/-- The promocode table, as the list of its rows. -/
abbrev PcDB := List Promocode

/-- SQLAlchemy `Result.scalar_one_or_none` on the rows matched by a
query: `None` for no row, the row when unique, and an exception when
several rows match. -/
def scalar_one_or_none (rows : List Promocode) : Except PyExn (Option Promocode) :=
  match rows with
  | [] => .ok none
  | [p] => .ok (some p)
  | _ => .error .other

namespace Promocode

/-- Result of a completed `Promocode.create` call: the returned value,
the table afterwards, and whether `session.rollback` and the error log
line ran. -/
structure CreateResult where
  result : Option Promocode
  db : PcDB
  rolledBack : Bool
  errorLogged : Bool
deriving DecidableEq, Repr

/-- Embedding of `Promocode.get` (promocode.py lines 44-61): select the
row with the given code and return `scalar_one_or_none` of the result. -/
def get (db : PcDB) (code : String) : Except PyExn (Option Promocode) :=
  scalar_one_or_none (db.filter (fun q => q.code = code))

/-- Embedding of `Promocode.create` (promocode.py lines 63-90).  The
method selects the existing row with the given code, then commits; it
never adds a row to the session, so the table is unchanged on every
path.  `commit` is the outcome of `session.commit()`: an
`IntegrityError` is caught, logged and answered with a rollback and a
`None` result; any other exception propagates. -/
def create (db : PcDB) (code : String) (commit : Except PyExn Unit) :
    Except PyExn CreateResult :=
  match scalar_one_or_none (db.filter (fun q => q.code = code)) with
  | .error e => .error e
  | .ok promocode =>
    match commit with
    | .ok _ => .ok ⟨promocode, db, false, false⟩
    | .error .integrityError => .ok ⟨none, db, true, true⟩
    | .error e => .error e

/-- Embedding of `Promocode.delete` (promocode.py lines 128-152):
select the row with the given code; if present, delete that row and
commit, returning `True`; otherwise return `False`. -/
def delete (db : PcDB) (code : String) : Except PyExn (Bool × PcDB) :=
  match scalar_one_or_none (db.filter (fun q => q.code = code)) with
  | .error e => .error e
  | .ok (some p) => .ok (true, db.erase p)
  | .ok none => .ok (false, db)

end Promocode

/-! ## Log rotation (`app/logger.py`) -/

/-- The file system visible to the logging handler: an association list
from file name to file content. -/
abbrev FS := List (String × String)

/-- Whether a file with this name exists. -/
def fsExists (fs : FS) (name : String) : Bool :=
  fs.any (fun e => e.1 = name)

/-- Content of the named file, when present. -/
def fsGet (fs : FS) (name : String) : Option String :=
  (fs.find? (fun e => e.1 = name)).map (fun e => e.2)

/-- Remove the named file. -/
def fsRemove (fs : FS) (name : String) : FS :=
  fs.filter (fun e => ¬ e.1 = name)

/-- Create or overwrite the named file with the given content. -/
def fsWrite (fs : FS) (name : String) (content : String) : FS :=
  fsRemove fs name ++ [(name, content)]

/-- The state of a `CompressingFileHandler` as built by its
constructor: the log file path, the rotation parameters passed to
`TimedRotatingFileHandler`, and the archive format. -/
structure LogHandler where
  baseFilename : String
  whenRotate : String
  interval : Nat
  backupCount : Nat
  archive_format : String
deriving DecidableEq, Repr

/-- Prefix test on strings, by character lists. -/
def strStartsWith (s pre : String) : Bool :=
  pre.toList.isPrefixOf s.toList

/-- Lexicographic comparison of character lists, the order Python
`sorted` gives to the date-suffixed backup names. -/
def charListLe : List Char → List Char → Bool
  | [], _ => true
  | _ :: _, [] => false
  | a :: as, b :: bs =>
    if a < b then true
    else if a = b then charListLe as bs
    else false

/-- Lexicographic comparison of strings. -/
def strLe (a b : String) : Bool :=
  charListLe a.toList b.toList

/-- Insert a name into a sorted list of names. -/
def insertSorted (x : String) : List String → List String
  | [] => [x]
  | y :: ys => if strLe x y then x :: y :: ys else y :: insertSorted x ys

/-- Sort a list of names lexicographically (insertion sort). -/
def sortStrings : List String → List String
  | [] => []
  | x :: xs => insertSorted x (sortStrings xs)

/-- Whether a rotation suffix has the `%Y-%m-%d` shape that
`TimedRotatingFileHandler.getFilesToDelete` matches for daily
rotation. -/
def isDateSuffix (s : String) : Bool :=
  match s.toList with
  | [a, b, c, d, h1, e, f, h2, g, i] =>
    a.isDigit && b.isDigit && c.isDigit && d.isDigit && h1 == '-' &&
    e.isDigit && f.isDigit && h2 == '-' && g.isDigit && i.isDigit
  | _ => false

/-- Embedding of `TimedRotatingFileHandler.getFilesToDelete` for daily
rotation: the backup files (base name, a dot, a date suffix), oldest
first beyond the newest `backupCount` many.  Date suffixes sort
chronologically as strings. -/
def getFilesToDelete (h : LogHandler) (fs : FS) : List String :=
  let dotBase := h.baseFilename ++ "."
  let backups := fs.filterMap (fun e =>
    if strStartsWith e.1 dotBase && isDateSuffix (e.1.drop dotBase.length) then
      some e.1
    else none)
  if backups.length ≤ h.backupCount then []
  else (sortStrings backups).take (backups.length - h.backupCount)

/-- Embedding of the base-class `TimedRotatingFileHandler.doRollover`
for the relevant file-system effects: rename the current log file to
the dated backup name (replacing an existing file of that name), delete
backups beyond `backupCount`, and reopen the base file empty (the
handler is constructed with `delay=False`). -/
def baseDoRollover (h : LogHandler) (suffix : String) (fs : FS) : FS :=
  let dfn := h.baseFilename ++ "." ++ suffix
  let fs1 := if fsExists fs dfn then fsRemove fs dfn else fs
  let fs2 :=
    match fsGet fs1 h.baseFilename with
    | some c => fsWrite (fsRemove fs1 h.baseFilename) dfn c
    | none => fs1
  let fs3 :=
    if 0 < h.backupCount then
      (getFilesToDelete h fs2).foldl (fun acc n => fsRemove acc n) fs2
    else fs2
  fsWrite fs3 h.baseFilename ""

/-- Content written by `CompressingFileHandler._archive_to_zip` for a
source file with the given content. -/
def zipContent (c : String) : String := "zip:" ++ c

/-- Content written by `CompressingFileHandler._archive_to_gz` for a
source file with the given content. -/
def gzContent (c : String) : String := "gz:" ++ c

/-- Embedding of `CompressingFileHandler.doRollover` (logger.py lines
56-74): run the base-class rollover, then compute
`log_file = self.rotation_filename(self.baseFilename)` — with no namer
installed this is `self.baseFilename` itself, the just-reopened current
log file — archive that file in the configured format, and remove it. -/
def doRollover (h : LogHandler) (suffix : String) (fs : FS) : FS :=
  let fs1 := baseDoRollover h suffix fs
  let log_file := h.baseFilename
  let fs2 :=
    if h.archive_format = "zip" then
      fsWrite fs1 (log_file ++ ".zip") (zipContent ((fsGet fs1 log_file).getD ""))
    else if h.archive_format = "gz" then
      fsWrite fs1 (log_file ++ ".gz") (gzContent ((fsGet fs1 log_file).getD ""))
    else fs1
  fsRemove fs2 log_file

/-- Embedding of the handler construction in `setup_logging`
(logger.py lines 114-131): the log file is named after the current date
in the log directory, rotation is at midnight with interval 1 and 7
backups, and the archive format comes from the configuration. -/
def setup_logging_handler (dir today fmt : String) : LogHandler :=
  { baseFilename := dir ++ "/" ++ today ++ ".log"
    whenRotate := "midnight"
    interval := 1
    backupCount := 7
    archive_format := fmt }

/-! ## Telegram handlers (`app/bot/routes/main_menu/handler.py`,
`app/bot/routes/subscription/payment_handler.py`) -/

/-- Observable side effects of the two embedded Telegram handlers, in
program order. -/
inductive BotAction where
  | refundStarPayment
  | deleteMessage (id : Nat)
  | logWarning
  | extendSubscription
  | createSubscription
  | transactionCreate (status : String)
  | answerMessage
  | stateClear
  | stateUpdateData
  | deleteCommandMessage
deriving DecidableEq, Repr

/-- Modelled from the spec: the `SubscriptionData` callback-data model
(`app/bot/navigation.py` is not in the provided sources).  Its fields
are those the provided handlers read and write: user_id, message_id,
devices, duration, price, is_extend. -/
structure SubscriptionData where
  user_id : Nat
  message_id : Nat
  devices : Nat
  duration : Nat
  price : Nat
  is_extend : Bool
deriving DecidableEq, Repr

/-- Python attribute lookup on a `SubscriptionData` value: reading a
name that is not a field raises `AttributeError`. -/
def SubscriptionData.getattr (d : SubscriptionData) (name : String) : Except PyExn Nat :=
  if name = "user_id" then .ok d.user_id
  else if name = "message_id" then .ok d.message_id
  else if name = "devices" then .ok d.devices
  else if name = "duration" then .ok d.duration
  else if name = "price" then .ok d.price
  else .error .attributeError

/-- The tail of `successful_payment` after the message-deletion block:
create or extend the subscription, record a Transaction with string
status success, and answer the user. -/
def successfulPaymentTail (d : SubscriptionData) : List BotAction :=
  (if d.is_extend then [BotAction.extendSubscription] else [BotAction.createSubscription]) ++
  [BotAction.transactionCreate "success", BotAction.answerMessage]

/-- Embedding of `successful_payment` (payment_handler.py lines
86-154).  `deleteRaises` is whether `bot.delete_message` raises inside
the `try` block.  The `except` branch formats a warning that reads
`data.message_idd`; that attribute lookup itself can raise, and an
exception raised inside the `except` branch propagates, aborting the
handler. -/
def successful_payment (d : SubscriptionData) (isDev : Bool) (deleteRaises : Bool) :
    Except PyExn (List BotAction) :=
  let acts0 : List BotAction := if isDev then [.refundStarPayment] else []
  if deleteRaises then
    match d.getattr "message_idd" with
    | .error e => .error e
    | .ok _ => .ok (acts0 ++ [.logWarning] ++ successfulPaymentTail d)
  else
    .ok (acts0 ++ [.deleteMessage d.message_id] ++ successfulPaymentTail d)

/-- The tail of `command_main_menu` after the deletion block: answer
with the main menu, store the new message id, delete the command
message. -/
def mainMenuTail : List BotAction :=
  [BotAction.answerMessage, BotAction.stateUpdateData, BotAction.deleteCommandMessage]

/-- Embedding of `command_main_menu` (handler.py lines 34-53).
`previous` is the stored previous menu message id (`None` when unset);
`deleteRaises` is whether `bot.delete_message` raises.  The `except`
branch logs a warning from names that exist, the `finally` branch
clears the state, and the handler continues either way. -/
def command_main_menu (previous : Option Nat) (deleteRaises : Bool) :
    Except PyExn (List BotAction) :=
  match previous with
  | some pid =>
    if deleteRaises then
      .ok ([.logWarning, .stateClear] ++ mainMenuTail)
    else
      .ok ([.deleteMessage pid, .stateClear] ++ mainMenuTail)
  | none => .ok mainMenuTail

/-! ## Admin restart handler
(`app/bot/routes/admin_tools/restart_handler.py`) -/

/-- The action taken by the restart handler: run a shell command, or
replace the process image via `os.execv`. -/
inductive RestartAction where
  | systemCommand (cmd : String)
  | execvImage (exe : String) (args : List String)
deriving DecidableEq, Repr

/-- Embedding of `callback_restart_bot` (restart_handler.py lines
17-29): read `HOSTNAME` from the environment (`None` when unset); a
truthy (non-empty) value runs `docker restart` on it, otherwise the
process re-executes `sys.executable` with
`[sys.executable, *sys.argv]`. -/
def callback_restart_bot (hostname : Option String) (exe : String)
    (argv : List String) : RestartAction :=
  match hostname with
  | some name =>
    if name = "" then .execvImage exe (exe :: argv)
    else .systemCommand ("docker restart " ++ name)
  | none => .execvImage exe (exe :: argv)

/-! ## Concrete fixtures used to instantiate the theorems -/

/-- A gateway whose IP trust check rejects every address. -/
def gwDeny : Gateway :=
  { trusted := fun _ => false
    factory := fun _ => .error .other
    handleSucceeded := fun _ db => .ok db
    handleCanceled := fun _ db => .ok db }

/-- A gateway that trusts every address, parses every body into a
succeeded notification for payment p1, and runs the embedded YooKassa
event handlers. -/
def gwTrust : Gateway :=
  { trusted := fun _ => true
    factory := fun _ => .ok ⟨.paymentSucceeded, "p1"⟩
    handleSucceeded := fun pid db => Yookassa.handle_payment_succeeded db pid
    handleCanceled := fun pid db => Yookassa.handle_payment_canceled db pid }

/-- A gateway that trusts every address and whose notification factory
raises on every body. -/
def gwFactoryErr : Gateway :=
  { trusted := fun _ => true
    factory := fun _ => .error .other
    handleSucceeded := fun _ db => .ok db
    handleCanceled := fun _ db => .ok db }

/-- A webhook request with a parsable body. -/
def reqA : WRequest := ⟨some "10.0.0.1", "10.0.0.2", .ok "body"⟩

/-- A webhook request whose body fails to parse as JSON. -/
def reqBadJson : WRequest := ⟨none, "77.75.153.10", .error .jsonError⟩

/-- A pending transaction row for payment p1. -/
def txRow1 : Transaction := ⟨1, "sub", "p1", .PENDING⟩

/-- A transaction table holding only `txRow1`. -/
def dbOne : TxDB := [txRow1]

/-- A promocode row with code A. -/
def pc1 : Promocode := ⟨"A", 30, false⟩

/-- The result of a successful duplicate `Promocode.create` call on a
table holding `pc1`. -/
def pcR1 : Promocode.CreateResult := ⟨some pc1, [pc1], false, false⟩

/-- Subscription data for the successful-payment handler fixture. -/
def subData1 : SubscriptionData := ⟨1, 42, 2, 30, 100, false⟩

/-- The log directory before a rollover: one current log file holding
content DATA. -/
def logFs0 : FS := [("logs/2025-01-01.log", "DATA")]

/-- The handler `setup_logging` builds on 2025-01-01 with the zip
archive format. -/
def logH0 : LogHandler := setup_logging_handler "logs" "2025-01-01" "zip"

/-! ## Theorems -/

/-- C1: a POST to the YooKassa webhook whose source IP (X-Forwarded-For
header, falling back to the remote address) fails the gateway IP trust
check is answered with HTTP 403, and the transaction table is not
touched. -/
theorem webhook_untrusted_returns_403 (g : Gateway) (req : WRequest) (db : TxDB)
    (h : g.trusted (req.xForwardedFor.getD req.remote) = false) :
    Yookassa.webhook_handler g req db = .ok (403, db) := by
  unfold Yookassa.webhook_handler
  simp [h]

/-- Witness for C1 at a concrete untrusted request. -/
theorem webhook_untrusted_returns_403_witness :
    gwDeny.trusted "10.0.0.1" = false ∧
    Yookassa.webhook_handler gwDeny reqA [] = .ok (403, []) :=
  ⟨rfl, webhook_untrusted_returns_403 gwDeny reqA [] rfl⟩

/-- C2: for a trusted request whose body parses into a notification,
the webhook answers 200 on a succeeded or canceled payment event once
the corresponding handler completes, and 400 on every other event. -/
theorem webhook_event_dispatch (g : Gateway) (req : WRequest) (db : TxDB)
    (raw : RawJson) (notif : WNotification)
    (ht : g.trusted (req.xForwardedFor.getD req.remote) = true)
    (hj : req.jsonBody = .ok raw)
    (hf : g.factory raw = .ok notif)
    (hs : notif.event = .paymentSucceeded →
      ∃ db2, g.handleSucceeded notif.payment_id db = .ok db2)
    (hc : notif.event = .paymentCanceled →
      ∃ db2, g.handleCanceled notif.payment_id db = .ok db2) :
    ((notif.event = .paymentSucceeded ∨ notif.event = .paymentCanceled) →
      ∃ db2, Yookassa.webhook_handler g req db = .ok (200, db2)) ∧
    ((¬ notif.event = .paymentSucceeded ∧ ¬ notif.event = .paymentCanceled) →
      Yookassa.webhook_handler g req db = .ok (400, db)) := by
  unfold Yookassa.webhook_handler
  rcases notif with ⟨ev, pid⟩
  simp only at hs hc
  cases ev with
  | paymentSucceeded =>
    obtain ⟨db2, h2⟩ := hs rfl
    refine ⟨fun _ => ⟨db2, ?_⟩, fun h => absurd rfl h.1⟩
    simp [ht, hj, hf, h2]
  | paymentCanceled =>
    obtain ⟨db2, h2⟩ := hc rfl
    refine ⟨fun _ => ⟨db2, ?_⟩, fun h => absurd rfl h.2⟩
    simp [ht, hj, hf, h2]
  | paymentWaitingForCapture =>
    exact ⟨fun h => by cases h <;> simp_all, fun _ => by simp [ht, hj, hf]⟩
  | refundSucceeded =>
    exact ⟨fun h => by cases h <;> simp_all, fun _ => by simp [ht, hj, hf]⟩
  | dealClosed =>
    exact ⟨fun h => by cases h <;> simp_all, fun _ => by simp [ht, hj, hf]⟩
  | payoutSucceeded =>
    exact ⟨fun h => by cases h <;> simp_all, fun _ => by simp [ht, hj, hf]⟩
  | payoutCanceled =>
    exact ⟨fun h => by cases h <;> simp_all, fun _ => by simp [ht, hj, hf]⟩

/-- Witness for C2 at a concrete trusted succeeded-payment request over
a table holding the pending transaction. -/
theorem webhook_event_dispatch_witness :
    ∃ db2, Yookassa.webhook_handler gwTrust reqA dbOne = .ok (200, db2) :=
  (webhook_event_dispatch gwTrust reqA dbOne "body" ⟨.paymentSucceeded, "p1"⟩
    rfl rfl rfl
    (fun _ => ⟨Transaction.update dbOne "p1" TransactionStatus.COMPLETED, by
      simp [gwTrust, Yookassa.handle_payment_succeeded, Transaction.get_by_id, dbOne, txRow1]⟩)
    (fun h => nomatch h)).1 (Or.inl rfl)

/-- C3 counterexample: a trusted request whose body fails JSON parsing
makes `webhook_handler` propagate the exception instead of answering
400 — `await request.json()` runs before the `try` block. -/
theorem webhook_json_parse_error_propagates :
    Yookassa.webhook_handler gwTrust reqBadJson [] = .error .jsonError ∧
    ∀ st db2, Yookassa.webhook_handler gwTrust reqBadJson [] ≠ .ok (st, db2) := by
  refine ⟨rfl, fun st db2 h => ?_⟩
  rw [show Yookassa.webhook_handler gwTrust reqBadJson [] = .error .jsonError from rfl] at h
  exact Except.noConfusion h

/-- C3 (amended): for a trusted request whose JSON body parses,
`webhook_handler` never propagates an exception; an exception raised
while building the notification object or while handling the payment
event is caught and answered with HTTP 400. -/
theorem webhook_try_block_catches (g : Gateway) (req : WRequest) (db : TxDB)
    (raw : RawJson)
    (ht : g.trusted (req.xForwardedFor.getD req.remote) = true)
    (hj : req.jsonBody = .ok raw) :
    (∃ st db2, Yookassa.webhook_handler g req db = .ok (st, db2)) ∧
    (∀ e, g.factory raw = .error e →
      Yookassa.webhook_handler g req db = .ok (400, db)) ∧
    (∀ notif e db2, g.factory raw = .ok notif →
      notif.event = .paymentSucceeded →
      g.handleSucceeded notif.payment_id db = .exn e db2 →
      Yookassa.webhook_handler g req db = .ok (400, db2)) ∧
    (∀ notif e db2, g.factory raw = .ok notif →
      notif.event = .paymentCanceled →
      g.handleCanceled notif.payment_id db = .exn e db2 →
      Yookassa.webhook_handler g req db = .ok (400, db2)) := by
  refine ⟨?_, ?_, ?_, ?_⟩
  · unfold Yookassa.webhook_handler
    cases hf : g.factory raw with
    | error e => exact ⟨400, db, by simp [ht, hj, hf]⟩
    | ok notif =>
      rcases notif with ⟨ev, pid⟩
      cases ev with
      | paymentSucceeded =>
        cases hh : g.handleSucceeded pid db with
        | ok db2 => exact ⟨200, db2, by simp [ht, hj, hf, hh]⟩
        | exn e db2 => exact ⟨400, db2, by simp [ht, hj, hf, hh]⟩
      | paymentCanceled =>
        cases hh : g.handleCanceled pid db with
        | ok db2 => exact ⟨200, db2, by simp [ht, hj, hf, hh]⟩
        | exn e db2 => exact ⟨400, db2, by simp [ht, hj, hf, hh]⟩
      | paymentWaitingForCapture => exact ⟨400, db, by simp [ht, hj, hf]⟩
      | refundSucceeded => exact ⟨400, db, by simp [ht, hj, hf]⟩
      | dealClosed => exact ⟨400, db, by simp [ht, hj, hf]⟩
      | payoutSucceeded => exact ⟨400, db, by simp [ht, hj, hf]⟩
      | payoutCanceled => exact ⟨400, db, by simp [ht, hj, hf]⟩
  · intro e hf
    unfold Yookassa.webhook_handler
    simp [ht, hj, hf]
  · intro notif e db2 hf hev hh
    unfold Yookassa.webhook_handler
    rcases notif with ⟨ev, pid⟩
    simp only at hev
    subst hev
    simp [ht, hj, hf, hh]
  · intro notif e db2 hf hev hh
    unfold Yookassa.webhook_handler
    rcases notif with ⟨ev, pid⟩
    simp only at hev
    subst hev
    simp [ht, hj, hf, hh]

/-- Witness for the amended C3 at a concrete request whose notification
factory raises. -/
theorem webhook_try_block_catches_witness :
    Yookassa.webhook_handler gwFactoryErr reqA [] = .ok (400, []) :=
  (webhook_try_block_catches gwFactoryErr reqA [] "body" rfl rfl).2.1 .other rfl

/-- C6: `create_payment` appends a row keyed by the gateway payment id
with status PENDING; a succeeded webhook event leaves every row with
that payment id at status COMPLETED and a canceled event at status
CANCELED; and the status field ranges over exactly the three enumerated
values. -/
theorem yookassa_transaction_lifecycle :
    (∀ (db : TxDB) (u : Nat) (packed pid : String),
      Yookassa.create_payment db u packed pid =
        db ++ [⟨u, packed, pid, TransactionStatus.PENDING⟩]) ∧
    (∀ (db db2 : TxDB) (pid : String),
      Yookassa.handle_payment_succeeded db pid = .ok db2 →
      ∀ t ∈ db2, t.payment_id = pid → t.status = TransactionStatus.COMPLETED) ∧
    (∀ (db db2 : TxDB) (pid : String),
      Yookassa.handle_payment_canceled db pid = .ok db2 →
      ∀ t ∈ db2, t.payment_id = pid → t.status = TransactionStatus.CANCELED) ∧
    (∀ s : TransactionStatus,
      s = TransactionStatus.PENDING ∨ s = TransactionStatus.COMPLETED ∨
        s = TransactionStatus.CANCELED) := by
  refine ⟨fun db u packed pid => rfl, ?_, ?_, fun s => by cases s <;> simp⟩
  · intro db db2 pid h t ht hpid
    unfold Yookassa.handle_payment_succeeded at h
    split at h
    · exact absurd h (by simp)
    · cases h
      simp only [Transaction.update] at ht
      obtain ⟨s, hs, rfl⟩ := List.mem_map.mp ht
      by_cases hsp : s.payment_id = pid
      · simp [hsp]
      · simp only [hsp, if_false] at hpid
  · intro db db2 pid h t ht hpid
    unfold Yookassa.handle_payment_canceled at h
    split at h
    · exact absurd h (by simp)
    · cases h
      simp only [Transaction.update] at ht
      obtain ⟨s, hs, rfl⟩ := List.mem_map.mp ht
      by_cases hsp : s.payment_id = pid
      · simp [hsp]
      · simp only [hsp, if_false] at hpid

/-- Witness for C6: the pending transaction for p1 is completed by the
succeeded handler. -/
theorem yookassa_transaction_lifecycle_witness :
    Yookassa.handle_payment_succeeded dbOne "p1" =
      .ok [Transaction.mk 1 "sub" "p1" TransactionStatus.COMPLETED] ∧
    (Transaction.mk 1 "sub" "p1" TransactionStatus.COMPLETED).status =
      TransactionStatus.COMPLETED :=
  ⟨by simp [Yookassa.handle_payment_succeeded, Transaction.get_by_id,
      Transaction.update, dbOne, txRow1],
   yookassa_transaction_lifecycle.2.1 dbOne
     [Transaction.mk 1 "sub" "p1" TransactionStatus.COMPLETED] "p1"
     (by simp [Yookassa.handle_payment_succeeded, Transaction.get_by_id,
        Transaction.update, dbOne, txRow1])
     (Transaction.mk 1 "sub" "p1" TransactionStatus.COMPLETED)
     (List.mem_singleton.mpr rfl) rfl⟩

/-- With unique codes, the rows matching a code are empty or a
singleton; in the singleton case erasing that row is the same as
filtering the code out. -/
theorem Promocode.filter_code_shape (db : PcDB) (code : String)
    (h : (db.map Promocode.code).Nodup) :
    db.filter (fun q => q.code = code) = [] ∨
    ∃ p, p ∈ db ∧ p.code = code ∧
      db.filter (fun q => q.code = code) = [p] ∧
      db.erase p = db.filter (fun q => ¬ q.code = code) := by
  induction db with
  | nil => exact Or.inl rfl
  | cons p rest ih =>
    rw [List.map_cons, List.nodup_cons] at h
    obtain ⟨hnotin, hrest⟩ := h
    by_cases hp : p.code = code
    · have hrestnone : ∀ q ∈ rest, ¬ q.code = code := by
        intro q hq hqc
        exact hnotin (hp ▸ hqc ▸ List.mem_map_of_mem Promocode.code hq)
      refine Or.inr ⟨p, List.mem_cons_self p rest, hp, ?_, ?_⟩
      · rw [List.filter_cons]
        simp only [hp, decide_True, if_true]
        rw [List.filter_eq_nil_iff.mpr (fun q hq => by simpa using hrestnone q hq)]
      · rw [List.erase_cons_head, List.filter_cons]
        simp only [hp, decide_True, not_true, decide_False, if_false]
        exact (List.filter_eq_self.mpr (fun q hq => by simpa using hrestnone q hq)).symm
    · rcases ih hrest with hnil | ⟨q, hqmem, hqcode, hfil, herase⟩
      · refine Or.inl ?_
        rw [List.filter_cons]
        simp only [hp, decide_False, if_false]
        exact hnil
      · refine Or.inr ⟨q, List.mem_cons_of_mem p hqmem, hqcode, ?_, ?_⟩
        · rw [List.filter_cons]
          simp only [hp, decide_False, if_false]
          exact hfil
        · have hne : p ≠ q := fun he => hp (he ▸ hqcode)
          rw [List.erase_cons_tail, List.filter_cons]
          · simp only [hp, decide_False, not_false_iff, decide_True, if_true]
            rw [herase]
          · simpa using hne

/-- Any completed `Promocode.create` call leaves the table exactly as
it was: the method never adds a row to the session. -/
theorem Promocode.create_db_eq (db : PcDB) (code : String)
    (c : Except PyExn Unit) (r : Promocode.CreateResult)
    (h : Promocode.create db code c = .ok r) : r.db = db := by
  unfold Promocode.create at h
  split at h
  · exact absurd h (by simp)
  · split at h
    · cases h; rfl
    · cases h; rfl
    · exact absurd h (by simp)

/-- C4: when `session.commit` raises an IntegrityError inside
`Promocode.create`, the exception is caught, the error is logged, the
session is rolled back, and the call returns None instead of
raising. -/
theorem promocode_create_integrity_error (db : PcDB) (code : String)
    (h : (db.map Promocode.code).Nodup) :
    Promocode.create db code (.error .integrityError) =
      .ok ⟨none, db, true, true⟩ := by
  rcases Promocode.filter_code_shape db code h with hnil | ⟨p, _, _, hfil, _⟩
  · unfold Promocode.create
    rw [hnil]
    rfl
  · unfold Promocode.create
    rw [hfil]
    rfl

/-- Witness for C4 on an empty promocode table. -/
theorem promocode_create_integrity_error_witness :
    Promocode.create [] "A" (.error .integrityError) =
      .ok ⟨none, [], true, true⟩ :=
  promocode_create_integrity_error [] "A" (by simp)

/-- C5: duplicate promo-code creation is idempotent — a second
`Promocode.create` call with a code already stored leaves the set of
stored promocodes equal to what it was after the first call. -/
theorem promocode_create_idempotent (db : PcDB) (code : String)
    (c1 c2 : Except PyExn Unit) (r1 r2 : Promocode.CreateResult)
    (_h1 : Promocode.create db code c1 = .ok r1)
    (_hdup : ∃ p ∈ r1.db, p.code = code)
    (h2 : Promocode.create r1.db code c2 = .ok r2) :
    r2.db = r1.db :=
  Promocode.create_db_eq r1.db code c2 r2 h2

/-- Witness for C5: creating code A twice over a table already holding
it. -/
theorem promocode_create_idempotent_witness :
    pcR1.db = pcR1.db :=
  promocode_create_idempotent [pc1] "A" (.ok ()) (.ok ()) pcR1 pcR1
    (by rfl) ⟨pc1, by simp [pcR1], rfl⟩ (by rfl)

/-- C10: `Promocode.delete` returns True exactly when a row with the
code exists, removing exactly the rows with that code (a single row,
by uniqueness), and returns False leaving the table unchanged
otherwise. -/
theorem promocode_delete_correct (db : PcDB) (code : String)
    (h : (db.map Promocode.code).Nodup) :
    Promocode.delete db code =
      .ok (decide (∃ p ∈ db, p.code = code),
        db.filter (fun q => ¬ q.code = code)) ∧
    ((¬ ∃ p ∈ db, p.code = code) →
      db.filter (fun q => ¬ q.code = code) = db) := by
  rcases Promocode.filter_code_shape db code h with hnil | ⟨p, hmem, hcode, hfil, herase⟩
  · have hnone : ∀ q ∈ db, ¬ q.code = code := by
      intro q hq
      have := List.filter_eq_nil_iff.mp hnil q hq
      simpa using this
    have hfe : db.filter (fun q => ¬ q.code = code) = db :=
      List.filter_eq_self.mpr (fun q hq => by simpa using hnone q hq)
    have hnex : ¬ ∃ p ∈ db, p.code = code := by
      rintro ⟨p, hp, hpc⟩
      exact hnone p hp hpc
    refine ⟨?_, fun _ => hfe⟩
    unfold Promocode.delete
    rw [hnil]
    simp [scalar_one_or_none, hnex]
    simpa [decide_not] using hfe.symm
  · have hex : ∃ q ∈ db, q.code = code := ⟨p, hmem, hcode⟩
    refine ⟨?_, fun hc => absurd hex hc⟩
    unfold Promocode.delete
    rw [hfil]
    simp [scalar_one_or_none, hex, herase]

/-- Witness for C10: deleting code A from the table holding only
`pc1`. -/
theorem promocode_delete_correct_witness :
    Promocode.delete [pc1] "A" =
      .ok (decide (∃ p ∈ [pc1], p.code = "A"),
        [pc1].filter (fun q => ¬ q.code = "A")) :=
  (promocode_delete_correct [pc1] "A" (by simp)).1

set_option maxRecDepth 8192 in
/-- C7 (code-bug evaluation): rolling over the handler that
`setup_logging` builds leaves the rotated-out dated backup uncompressed
and unarchived, archives the freshly reopened current log file instead,
and then deletes the current log file. -/
theorem doRollover_archives_wrong_file :
    fsGet (doRollover logH0 "2025-01-01" logFs0)
      "logs/2025-01-01.log.2025-01-01" = some "DATA" ∧
    fsExists (doRollover logH0 "2025-01-01" logFs0)
      "logs/2025-01-01.log.2025-01-01.zip" = false ∧
    fsExists (doRollover logH0 "2025-01-01" logFs0)
      "logs/2025-01-01.log.2025-01-01.gz" = false ∧
    fsGet (doRollover logH0 "2025-01-01" logFs0)
      "logs/2025-01-01.log.zip" = some (zipContent "") ∧
    fsExists (doRollover logH0 "2025-01-01" logFs0)
      "logs/2025-01-01.log" = false := by
  decide

/-- C8 (code-bug evaluation): when message deletion raises inside
`successful_payment`, the except branch reads the nonexistent attribute
message_idd and itself raises, aborting the handler; the same situation
inside `command_main_menu` is logged and swallowed, and on the
no-failure path `successful_payment` runs to completion. -/
theorem successful_payment_except_branch_raises :
    successful_payment subData1 false true = .error .attributeError ∧
    successful_payment subData1 false false =
      .ok ([.deleteMessage 42] ++ successfulPaymentTail subData1) ∧
    command_main_menu (some 5) true =
      .ok ([.logWarning, .stateClear] ++ mainMenuTail) := by
  decide

/-- C9: the restart handler runs `docker restart` on a set, non-empty
HOSTNAME and otherwise re-executes the interpreter on the current
argument vector; the two branches are exhaustive and mutually
exclusive. -/
theorem restart_branch_selection (hostname : Option String) (exe : String)
    (argv : List String) :
    (∀ name, hostname = some name → ¬ name = "" →
      callback_restart_bot hostname exe argv =
        .systemCommand ("docker restart " ++ name)) ∧
    (hostname = none ∨ hostname = some "" →
      callback_restart_bot hostname exe argv = .execvImage exe (exe :: argv)) ∧
    ((∃ c, callback_restart_bot hostname exe argv = .systemCommand c) ∨
      callback_restart_bot hostname exe argv = .execvImage exe (exe :: argv)) ∧
    (∀ c, ¬ (callback_restart_bot hostname exe argv = .systemCommand c ∧
      callback_restart_bot hostname exe argv = .execvImage exe (exe :: argv))) := by
  refine ⟨?_, ?_, ?_, ?_⟩
  · rintro name rfl hne
    simp [callback_restart_bot, hne]
  · rintro (rfl | rfl) <;> simp [callback_restart_bot]
  · cases hostname with
    | none => exact Or.inr rfl
    | some name =>
      by_cases hne : name = ""
      · subst hne
        exact Or.inr (by simp [callback_restart_bot])
      · exact Or.inl ⟨"docker restart " ++ name, by simp [callback_restart_bot, hne]⟩
  · rintro c ⟨h1, h2⟩
    rw [h1] at h2
    exact RestartAction.noConfusion h2

/-- Witness for C9 with HOSTNAME set to a container name. -/
theorem restart_branch_selection_witness :
    callback_restart_bot (some "abc") "python" ["main.py"] =
      .systemCommand "docker restart abc" :=
  (restart_branch_selection (some "abc") "python" ["main.py"]).1 "abc" rfl (by decide)
